import Mathlib

/-!
Shallow embedding of the travel-planner repository's core logic:
the day-grouping algorithm, the Spot/Departure mutation handlers and the
per-leg travel-info store of `src/unnamed/part_000` (trip page, second
revision), and the travel-time API route of
`src/src/app/api/travel-time/route.ts`.

Strings are Lean `String`s; JS `localeCompare` on the `"HH:mm"` /
`"YYYY-MM-DD"` strings used here coincides with code-point lexicographic
order, modelled by `strCmp`.  JS `Array.prototype.sort` is stable
(ES2019), modelled by a stable insertion sort.  JSON numbers reaching the
formatters are taken after `Math.round`, hence `Nat`.
-/

namespace TravelApp

/-- Spot record from the trip page: `visitDate` is `"YYYY-MM-DD"` or `""`,
`visitTime` is `"HH:mm"` or `""`. -/
structure Spot where
  id : String
  name : String
  category : String
  memo : String
  visitDate : String
  visitTime : String
deriving DecidableEq, Repr

/-- DayGroup record: `date = ""` means the undecided bucket. -/
structure DayGroup where
  date : String
  spots : List Spot
deriving DecidableEq, Repr

/-- Lexicographic (code-unit) comparison of character lists: the order in
which JavaScript compares the app's ASCII `"HH:mm"` and `"YYYY-MM-DD"`
strings (`localeCompare` agrees with code-unit order on them). -/
def charListLt : List Char → List Char → Bool
  | [], [] => false
  | [], _ :: _ => true
  | _ :: _, [] => false
  | a :: as, b :: bs =>
    if a < b then true
    else if b < a then false
    else charListLt as bs

/-- Strict code-unit lexicographic order on strings. -/
def strLt (a b : String) : Prop := charListLt a.data b.data = true

/-- Reflexive code-unit lexicographic order on strings. -/
def strLe (a b : String) : Prop := charListLt b.data a.data = false

/-- Three-way string comparison; models `localeCompare` on the ASCII
date/time strings this app compares (negative / zero / positive). -/
def strCmp (a b : String) : Int :=
  if charListLt a.data b.data then -1 else if charListLt b.data a.data then 1 else 0

/-- Comparator of the inner sort of `groupSpots` (part_000 lines 491-496):
unset times are mutually tied and rank after any set time; set times
compare by `localeCompare`.  JS falsiness `!s` on a string is `s = ""`. -/
def spotCmp (a b : Spot) : Int :=
  if a.visitTime = "" then (if b.visitTime = "" then 0 else 1)
  else if b.visitTime = "" then -1
  else strCmp a.visitTime b.visitTime

/-- Comparator of the outer sort of `groupSpots` (part_000 lines 498-502):
an empty date ranks last; otherwise dates compare by `localeCompare`. -/
def groupCmp (a b : DayGroup) : Int :=
  if a.date = "" then 1
  else if b.date = "" then -1
  else strCmp a.date b.date

/-- Stable insertion step: place `x` before the first element strictly
greater than it, i.e. after every already-placed element that compares
less-or-equal.  Folding this over the input in order reproduces the
output of the (stable) ECMAScript `Array.prototype.sort`. -/
def insertCmp (c : α → α → Int) (x : α) : List α → List α
  | [] => [x]
  | y :: ys => if c x y < 0 then x :: y :: ys else y :: insertCmp c x ys

/-- Stable sort by a three-way comparator, modelling `arr.sort(c)`. -/
def sortCmp (c : α → α → Int) (l : List α) : List α :=
  l.foldl (fun acc x => insertCmp c x acc) []

/-- Grouping function from part_000 lines 481-503: bucket spots by
`visitDate` (first-occurrence key order, as `Object.entries` preserves
insertion order for these non-index keys), sort each bucket by
`spotCmp`, then sort the buckets by `groupCmp`.  `spot.visitDate || ""`
is the identity on strings, so the key is `visitDate` itself. -/
def groupKeys (spots : List Spot) : List String :=
  spots.foldl (fun ks s => if s.visitDate ∈ ks then ks else ks ++ [s.visitDate]) []

def groupSpots (spots : List Spot) : List DayGroup :=
  sortCmp groupCmp
    ((groupKeys spots).map (fun d =>
      { date := d
        spots := sortCmp spotCmp (spots.filter (fun s => s.visitDate == d)) }))

/-! Order theory of the lexicographic comparison. -/

theorem charListLt_irrefl : ∀ a : List Char, charListLt a a = false := by
  intro a
  induction a with
  | nil => rfl
  | cons x xs ih => simp [charListLt, lt_irrefl, ih]

theorem charListLt_trans :
    ∀ a b c : List Char, charListLt a b = true → charListLt b c = true →
      charListLt a c = true := by
  intro a
  induction a with
  | nil =>
      intro b c h1 h2
      cases b with
      | nil => exact absurd h1 (by decide)
      | cons y ys =>
          cases c with
          | nil => simp [charListLt] at h2
          | cons z zs => rfl
  | cons x xs ih =>
      intro b c h1 h2
      cases b with
      | nil => simp [charListLt] at h1
      | cons y ys =>
          cases c with
          | nil => simp [charListLt] at h2
          | cons z zs =>
              simp only [charListLt] at h1 h2 ⊢
              by_cases hxy : x < y
              · by_cases hyz : y < z
                · rw [if_pos (lt_trans hxy hyz)]
                · rw [if_neg hyz] at h2
                  by_cases hzy : z < y
                  · rw [if_pos hzy] at h2
                    exact absurd h2 (by decide)
                  · have hyzeq : y = z := le_antisymm (not_lt.mp hzy) (not_lt.mp hyz)
                    subst hyzeq
                    rw [if_pos hxy]
              · rw [if_neg hxy] at h1
                by_cases hyx : y < x
                · rw [if_pos hyx] at h1
                  exact absurd h1 (by decide)
                · rw [if_neg hyx] at h1
                  have hxyeq : x = y := le_antisymm (not_lt.mp hyx) (not_lt.mp hxy)
                  subst hxyeq
                  by_cases hxz : x < z
                  · rw [if_pos hxz]
                  · rw [if_neg hxz] at h2 ⊢
                    by_cases hzx : z < x
                    · rw [if_pos hzx] at h2
                      exact absurd h2 (by decide)
                    · rw [if_neg hzx] at h2 ⊢
                      exact ih ys zs h1 h2

theorem charListLt_asymm (a b : List Char) (h : charListLt a b = true) :
    charListLt b a = false := by
  cases hba : charListLt b a
  · rfl
  · have hgoal := charListLt_trans a b a h hba
    rw [charListLt_irrefl] at hgoal
    exact absurd hgoal (by decide)

theorem charListLt_conn :
    ∀ a b : List Char, charListLt a b = false → charListLt b a = false → a = b := by
  intro a
  induction a with
  | nil =>
      intro b h1 _
      cases b with
      | nil => rfl
      | cons y ys => simp [charListLt] at h1
  | cons x xs ih =>
      intro b h1 h2
      cases b with
      | nil => simp [charListLt] at h2
      | cons y ys =>
          simp only [charListLt] at h1 h2
          by_cases hxy : x < y
          · rw [if_pos hxy] at h1
            exact absurd h1 (by decide)
          · by_cases hyx : y < x
            · rw [if_pos hyx] at h2
              exact absurd h2 (by decide)
            · rw [if_neg hxy, if_neg hyx] at h1
              rw [if_neg hyx, if_neg hxy] at h2
              have hxyeq : x = y := le_antisymm (not_lt.mp hyx) (not_lt.mp hxy)
              rw [hxyeq, ih ys h1 h2]

theorem charListNotLt_trans (a b c : List Char) (h1 : charListLt b a = false)
    (h2 : charListLt c b = false) : charListLt c a = false := by
  cases hca : charListLt c a
  · rfl
  · exfalso
    cases hab : charListLt a b
    · have hba : a = b := charListLt_conn a b hab h1
      rw [← hba] at h2
      rw [hca] at h2
      exact absurd h2 (by decide)
    · have hcb := charListLt_trans c a b hca hab
      rw [hcb] at h2
      exact absurd h2 (by decide)

theorem string_data_inj {a b : String} (h : a.data = b.data) : a = b :=
  congrArg String.mk h

/-- Sanity: the reflexive order is the strict order plus equality. -/
theorem strLe_iff (a b : String) : strLe a b ↔ (strLt a b ∨ a = b) := by
  unfold strLe strLt
  constructor
  · intro h
    cases hab : charListLt a.data b.data
    · exact Or.inr (string_data_inj (charListLt_conn a.data b.data hab h))
    · exact Or.inl rfl
  · intro h
    rcases h with h | h
    · exact charListLt_asymm a.data b.data h
    · rw [h]
      exact charListLt_irrefl b.data

/-! Comparator facts. -/

theorem strCmp_lt_iff (a b : String) : strCmp a b < 0 ↔ charListLt a.data b.data = true := by
  unfold strCmp
  split_ifs with h1 h2
  · exact iff_of_true (by decide) h1
  · exact iff_of_false (by decide) h1
  · exact iff_of_false (by decide) h1

theorem strCmp_le_iff (a b : String) : strCmp a b ≤ 0 ↔ charListLt b.data a.data = false := by
  unfold strCmp
  split_ifs with h1 h2
  · exact iff_of_true (by decide) (charListLt_asymm a.data b.data h1)
  · exact iff_of_false (by decide) (by simp [h2])
  · exact iff_of_true (by decide) (by simpa using h2)

theorem spotCmp_flip (a b : Spot) (h : ¬ spotCmp a b < 0) : spotCmp b a ≤ 0 := by
  unfold spotCmp at h ⊢
  by_cases ha : a.visitTime = "" <;> by_cases hb : b.visitTime = "" <;>
    simp only [ha, hb, if_true, if_false, if_pos, if_neg, not_false_eq_true] at h ⊢ <;>
    first
      | decide
      | exact absurd (by decide) h
      | (rw [strCmp_lt_iff] at h; rw [strCmp_le_iff]; simpa using h)

theorem spotCmp_trans (a b e : Spot) (h1 : spotCmp a b ≤ 0) (h2 : spotCmp b e ≤ 0) :
    spotCmp a e ≤ 0 := by
  unfold spotCmp at h1 h2 ⊢
  by_cases ha : a.visitTime = "" <;> by_cases hb : b.visitTime = "" <;>
    by_cases he : e.visitTime = "" <;>
    simp only [ha, hb, he, if_true, if_false, if_pos, if_neg, not_false_eq_true] at h1 h2 ⊢ <;>
    first
      | decide
      | exact absurd h1 (by decide)
      | exact absurd h2 (by decide)
      | (rw [strCmp_le_iff] at h1 h2 ⊢; exact charListNotLt_trans _ _ _ h1 h2)

theorem groupCmp_flip (a b : DayGroup) (hne : a.date ≠ b.date)
    (h : ¬ groupCmp a b < 0) : groupCmp b a ≤ 0 := by
  unfold groupCmp at h ⊢
  by_cases ha : a.date = "" <;> by_cases hb : b.date = "" <;>
    simp only [ha, hb, if_true, if_false, if_pos, if_neg, not_false_eq_true] at h ⊢ <;>
    first
      | decide
      | exact absurd (ha.trans hb.symm) hne
      | exact absurd (by decide) h
      | (rw [strCmp_lt_iff] at h; rw [strCmp_le_iff]; simpa using h)

theorem groupCmp_trans (a b e : DayGroup) (h1 : groupCmp a b ≤ 0)
    (h2 : groupCmp b e ≤ 0) : groupCmp a e ≤ 0 := by
  unfold groupCmp at h1 h2 ⊢
  by_cases ha : a.date = "" <;> by_cases hb : b.date = "" <;>
    by_cases he : e.date = "" <;>
    simp only [ha, hb, he, if_true, if_false, if_pos, if_neg, not_false_eq_true] at h1 h2 ⊢ <;>
    first
      | decide
      | exact absurd h1 (by decide)
      | exact absurd h2 (by decide)
      | (rw [strCmp_le_iff] at h1 h2 ⊢; exact charListNotLt_trans _ _ _ h1 h2)

/-! Generic facts about the stable insertion sort. -/

theorem mem_insertCmp (c : α → α → Int) (x z : α) :
    ∀ l : List α, z ∈ insertCmp c x l → z = x ∨ z ∈ l := by
  intro l
  induction l with
  | nil =>
      intro h
      simp only [insertCmp, List.mem_singleton] at h
      exact Or.inl h
  | cons y ys ih =>
      intro h
      simp only [insertCmp] at h
      by_cases hc : c x y < 0
      · rw [if_pos hc] at h
        exact List.mem_cons.mp h
      · rw [if_neg hc] at h
        rcases List.mem_cons.mp h with rfl | h'
        · exact Or.inr (List.mem_cons_self _ _)
        · rcases ih h' with h'' | h''
          · exact Or.inl h''
          · exact Or.inr (List.mem_cons_of_mem _ h'')

theorem perm_insertCmp (c : α → α → Int) (x : α) :
    ∀ l : List α, List.Perm (insertCmp c x l) (x :: l) := by
  intro l
  induction l with
  | nil => exact List.Perm.refl _
  | cons y ys ih =>
      simp only [insertCmp]
      by_cases hc : c x y < 0
      · rw [if_pos hc]
      · rw [if_neg hc]
        exact (List.Perm.cons y ih).trans (List.Perm.swap x y ys)

theorem perm_sortFold (c : α → α → Int) :
    ∀ (l acc : List α),
      List.Perm (List.foldl (fun acc x => insertCmp c x acc) acc l) (acc ++ l) := by
  intro l
  induction l with
  | nil => intro acc; simp
  | cons x xs ih =>
      intro acc
      simp only [List.foldl_cons]
      refine ((ih (insertCmp c x acc)).trans ?_)
      refine ((perm_insertCmp c x acc).append_right xs).trans ?_
      exact List.perm_middle.symm

theorem perm_sortCmp (c : α → α → Int) (l : List α) : List.Perm (sortCmp c l) l := by
  simpa using perm_sortFold c l []

theorem pairwise_insertCmp (c : α → α → Int) (D : α → α → Prop)
    (hflip : ∀ a b, D a b → ¬ c a b < 0 → c b a ≤ 0)
    (htrans : ∀ a b e, c a b ≤ 0 → c b e ≤ 0 → c a e ≤ 0) (x : α) :
    ∀ l : List α, (∀ z ∈ l, D x z) →
      List.Pairwise (fun a b => c a b ≤ 0) l →
      List.Pairwise (fun a b => c a b ≤ 0) (insertCmp c x l) := by
  intro l
  induction l with
  | nil =>
      intro _ _
      simp [insertCmp]
  | cons y ys ih =>
      intro hD hp
      rw [List.pairwise_cons] at hp
      obtain ⟨hy, hys⟩ := hp
      simp only [insertCmp]
      by_cases hc : c x y < 0
      · rw [if_pos hc, List.pairwise_cons, List.pairwise_cons]
        refine ⟨?_, hy, hys⟩
        intro z hz
        rcases List.mem_cons.mp hz with rfl | hz'
        · exact le_of_lt hc
        · exact htrans x y z (le_of_lt hc) (hy z hz')
      · rw [if_neg hc, List.pairwise_cons]
        refine ⟨?_, ih (fun z hz => hD z (List.mem_cons_of_mem y hz)) hys⟩
        intro z hz
        rcases mem_insertCmp c x z ys hz with hzx | hz'
        · rw [hzx]
          exact hflip x y (hD y (List.mem_cons_self y ys)) hc
        · exact hy z hz'

theorem pairwise_sortFold (c : α → α → Int) (D : α → α → Prop)
    (hsymm : ∀ a b, D a b → D b a)
    (hflip : ∀ a b, D a b → ¬ c a b < 0 → c b a ≤ 0)
    (htrans : ∀ a b e, c a b ≤ 0 → c b e ≤ 0 → c a e ≤ 0) :
    ∀ (l acc : List α), List.Pairwise D l → (∀ a ∈ acc, ∀ b ∈ l, D a b) →
      List.Pairwise (fun a b => c a b ≤ 0) acc →
      List.Pairwise (fun a b => c a b ≤ 0)
        (List.foldl (fun acc x => insertCmp c x acc) acc l) := by
  intro l
  induction l with
  | nil =>
      intro acc _ _ hacc
      simpa using hacc
  | cons x xs ih =>
      intro acc hDl hcross hacc
      simp only [List.foldl_cons]
      rw [List.pairwise_cons] at hDl
      obtain ⟨hDx, hDxs⟩ := hDl
      refine ih (insertCmp c x acc) hDxs ?_ ?_
      · intro a ha b hb
        rcases mem_insertCmp c x a acc ha with rfl | ha'
        · exact hDx b hb
        · exact hcross a ha' b (List.mem_cons_of_mem x hb)
      · refine pairwise_insertCmp c D hflip htrans x acc ?_ hacc
        intro z hz
        exact hsymm _ _ (hcross z hz x (List.mem_cons_self x xs))

theorem pairwise_sortCmp (c : α → α → Int) (D : α → α → Prop)
    (hsymm : ∀ a b, D a b → D b a)
    (hflip : ∀ a b, D a b → ¬ c a b < 0 → c b a ≤ 0)
    (htrans : ∀ a b e, c a b ≤ 0 → c b e ≤ 0 → c a e ≤ 0)
    (l : List α) (hl : List.Pairwise D l) :
    List.Pairwise (fun a b => c a b ≤ 0) (sortCmp c l) := by
  refine pairwise_sortFold c D hsymm hflip htrans l [] hl ?_ ?_ <;> simp

theorem pairwise_true (l : List α) : List.Pairwise (fun _ _ => True) l := by
  induction l with
  | nil => exact List.Pairwise.nil
  | cons x xs ih => exact List.Pairwise.cons (fun _ _ => trivial) ih

/-! Stability of the inner sort on unset-time spots: a spot with unset
time never compares strictly below anything, so its insertion appends. -/

theorem insertCmp_untimed_append (x : Spot) (hx : x.visitTime = "") :
    ∀ l : List Spot, insertCmp spotCmp x l = l ++ [x] := by
  intro l
  induction l with
  | nil => rfl
  | cons y ys ih =>
      simp only [insertCmp]
      have hc : ¬ spotCmp x y < 0 := by
        unfold spotCmp
        rw [if_pos hx]
        split_ifs <;> decide
      rw [if_neg hc, ih]
      rfl

theorem filter_untimed_insertCmp (x : Spot) (hx : ¬ x.visitTime = "") :
    ∀ l : List Spot,
      (insertCmp spotCmp x l).filter (fun s => s.visitTime == "") =
        l.filter (fun s => s.visitTime == "") := by
  intro l
  induction l with
  | nil => simp [insertCmp, List.filter_cons, beq_iff_eq, hx]
  | cons y ys ih =>
      simp only [insertCmp]
      by_cases hc : spotCmp x y < 0
      · rw [if_pos hc]
        simp [List.filter_cons, beq_iff_eq, hx]
      · rw [if_neg hc]
        simp [List.filter_cons, ih]

theorem filter_untimed_sortFold :
    ∀ (l acc : List Spot),
      (List.foldl (fun acc x => insertCmp spotCmp x acc) acc l).filter
          (fun s => s.visitTime == "") =
        acc.filter (fun s => s.visitTime == "") ++
          l.filter (fun s => s.visitTime == "") := by
  intro l
  induction l with
  | nil => intro acc; simp
  | cons x xs ih =>
      intro acc
      simp only [List.foldl_cons]
      rw [ih]
      by_cases hx : x.visitTime = ""
      · rw [insertCmp_untimed_append x hx]
        simp [List.filter_append, List.filter_cons, beq_iff_eq, hx]
      · rw [filter_untimed_insertCmp x hx]
        simp [List.filter_cons, beq_iff_eq, hx]

theorem filter_untimed_sortCmp (l : List Spot) :
    (sortCmp spotCmp l).filter (fun s => s.visitTime == "") =
      l.filter (fun s => s.visitTime == "") := by
  simpa using filter_untimed_sortFold l []

/-! Structure of `groupSpots`. -/

theorem groupKeys_nodup_aux :
    ∀ (l : List Spot) (acc : List String), acc.Nodup →
      (List.foldl
        (fun ks s => if s.visitDate ∈ ks then ks else ks ++ [s.visitDate]) acc l).Nodup := by
  intro l
  induction l with
  | nil =>
      intro acc h
      simpa using h
  | cons x xs ih =>
      intro acc h
      simp only [List.foldl_cons]
      by_cases hm : x.visitDate ∈ acc
      · rw [if_pos hm]
        exact ih acc h
      · rw [if_neg hm]
        refine ih _ ?_
        simp [List.nodup_append, h, hm]

theorem groupKeys_nodup (spots : List Spot) : (groupKeys spots).Nodup :=
  groupKeys_nodup_aux spots [] (by simp)

theorem mem_groupSpots (spots : List Spot) (g : DayGroup) (hg : g ∈ groupSpots spots) :
    ∃ d, d ∈ groupKeys spots ∧
      g = { date := d
            spots := sortCmp spotCmp (spots.filter (fun s => s.visitDate == d)) } := by
  unfold groupSpots at hg
  have hmem := (perm_sortCmp groupCmp _).mem_iff.mp hg
  rcases List.mem_map.mp hmem with ⟨d, hd, hfd⟩
  exact ⟨d, hd, hfd.symm⟩

theorem strLe_ne_lt (a b : String) (h : charListLt b.data a.data = false)
    (hne : a ≠ b) : charListLt a.data b.data = true := by
  cases hx : charListLt a.data b.data
  · exact absurd (string_data_inj (charListLt_conn a.data b.data hx h)) hne
  · rfl

theorem spotLe_spec (a b : Spot) (h : spotCmp a b ≤ 0) :
    (a.visitTime = "" → b.visitTime = "") ∧
    (a.visitTime ≠ "" → b.visitTime ≠ "" → strLe a.visitTime b.visitTime) := by
  unfold spotCmp at h
  by_cases ha : a.visitTime = "" <;> by_cases hb : b.visitTime = "" <;>
    simp only [ha, hb, if_true, if_false, if_pos, if_neg, not_false_eq_true] at h <;>
    first
      | exact absurd h (by decide)
      | exact ⟨fun _ => hb, fun hna _ => absurd ha hna⟩
      | exact ⟨fun h1 => absurd h1 ha, fun _ hnb => absurd hb hnb⟩
      | exact ⟨fun h1 => absurd h1 ha, fun _ _ => (strCmp_le_iff _ _).mp h⟩

theorem groupLe_spec (a b : DayGroup) (hle : groupCmp a b ≤ 0) (hne : a.date ≠ b.date) :
    (a.date = "" → b.date = "") ∧
    (a.date ≠ "" → b.date ≠ "" → strLt a.date b.date) := by
  unfold groupCmp at hle
  by_cases ha : a.date = "" <;> by_cases hb : b.date = "" <;>
    simp only [ha, hb, if_true, if_false, if_pos, if_neg, not_false_eq_true] at hle <;>
    first
      | exact absurd hle (by decide)
      | exact ⟨fun h1 => absurd h1 ha, fun _ hnb => absurd hb hnb⟩
      | exact ⟨fun h1 => absurd h1 ha,
          fun _ _ => strLe_ne_lt _ _ ((strCmp_le_iff _ _).mp hle) hne⟩

theorem pairwise_and {R S : α → α → Prop} :
    ∀ {l : List α}, List.Pairwise R l → List.Pairwise S l →
      List.Pairwise (fun a b => R a b ∧ S a b) l := by
  intro l h1 h2
  induction l with
  | nil => exact List.Pairwise.nil
  | cons x xs ih =>
      rw [List.pairwise_cons] at h1 h2 ⊢
      exact ⟨fun b hb => ⟨h1.1 b hb, h2.1 b hb⟩, ih h1.2 h2.2⟩

/-- C3: within each day bucket produced by `groupSpots`, timed spots come
in ascending (code-unit, i.e. chronological for `"HH:mm"`) time order, any
unset-time spot comes after every timed spot, and the unset-time spots
appear in exactly their original insertion order (the untimed subsequence
of the bucket equals the untimed subsequence of the input restricted to
that date — stability). -/
theorem groupSpots_time_order (spots : List Spot) (g : DayGroup)
    (hg : g ∈ groupSpots spots) :
    List.Pairwise (fun a b : Spot =>
      (a.visitTime = "" → b.visitTime = "") ∧
      (a.visitTime ≠ "" → b.visitTime ≠ "" → strLe a.visitTime b.visitTime)) g.spots ∧
    g.spots.filter (fun s => s.visitTime == "") =
      (spots.filter (fun s => s.visitDate == g.date)).filter
        (fun s => s.visitTime == "") := by
  obtain ⟨d, hd, hgd⟩ := mem_groupSpots spots g hg
  subst hgd
  constructor
  · refine List.Pairwise.imp (fun h => spotLe_spec _ _ h) ?_
    exact pairwise_sortCmp spotCmp (fun _ _ => True) (fun _ _ _ => trivial)
      (fun a b _ hc => spotCmp_flip a b hc) spotCmp_trans _ (pairwise_true _)
  · exact filter_untimed_sortCmp _

/-- Demonstration input from the spec's time-ordering scenario: one bucket
with times 09:00, unset, 14:00, unset, inserted in that order. -/
def demoSpots : List Spot :=
  [ ⟨"s1", "a", "観光", "", "2025-06-01", "09:00"⟩,
    ⟨"s2", "b", "観光", "", "2025-06-01", ""⟩,
    ⟨"s3", "c", "観光", "", "2025-06-01", "14:00"⟩,
    ⟨"s4", "d", "観光", "", "2025-06-01", ""⟩ ]

/-- Witness for C3 at the spec's concrete scenario: the single bucket
sorts to 09:00, 14:00, then the two unset-time spots in insertion order. -/
theorem groupSpots_time_order_witness :
    (⟨"2025-06-01",
      [ ⟨"s1", "a", "観光", "", "2025-06-01", "09:00"⟩,
        ⟨"s3", "c", "観光", "", "2025-06-01", "14:00"⟩,
        ⟨"s2", "b", "観光", "", "2025-06-01", ""⟩,
        ⟨"s4", "d", "観光", "", "2025-06-01", ""⟩ ]⟩ : DayGroup) ∈ groupSpots demoSpots ∧
    (List.Pairwise (fun a b : Spot =>
      (a.visitTime = "" → b.visitTime = "") ∧
      (a.visitTime ≠ "" → b.visitTime ≠ "" → strLe a.visitTime b.visitTime))
      (⟨"2025-06-01",
        [ ⟨"s1", "a", "観光", "", "2025-06-01", "09:00"⟩,
          ⟨"s3", "c", "観光", "", "2025-06-01", "14:00"⟩,
          ⟨"s2", "b", "観光", "", "2025-06-01", ""⟩,
          ⟨"s4", "d", "観光", "", "2025-06-01", ""⟩ ]⟩ : DayGroup).spots ∧
      (⟨"2025-06-01",
        [ ⟨"s1", "a", "観光", "", "2025-06-01", "09:00"⟩,
          ⟨"s3", "c", "観光", "", "2025-06-01", "14:00"⟩,
          ⟨"s2", "b", "観光", "", "2025-06-01", ""⟩,
          ⟨"s4", "d", "観光", "", "2025-06-01", ""⟩ ]⟩ : DayGroup).spots.filter
          (fun s => s.visitTime == "") =
        (demoSpots.filter (fun s => s.visitDate ==
          (⟨"2025-06-01",
            [ ⟨"s1", "a", "観光", "", "2025-06-01", "09:00"⟩,
              ⟨"s3", "c", "観光", "", "2025-06-01", "14:00"⟩,
              ⟨"s2", "b", "観光", "", "2025-06-01", ""⟩,
              ⟨"s4", "d", "観光", "", "2025-06-01", ""⟩ ]⟩ : DayGroup).date)).filter
          (fun s => s.visitTime == "")) :=
  ⟨by decide, groupSpots_time_order demoSpots _ (by decide)⟩

/-- C4: the day buckets produced by `groupSpots` are ordered by date
ascending (code-unit order on `"YYYY-MM-DD"`, i.e. chronological), an
empty-date bucket is never followed by a dated bucket, and bucket dates
are pairwise distinct — hence the undecided bucket, when present, is
unique and appears strictly after every dated bucket. -/
theorem groupSpots_bucket_order (spots : List Spot) :
    List.Pairwise (fun g h : DayGroup =>
      (g.date = "" → h.date = "") ∧
      (g.date ≠ "" → h.date ≠ "" → strLt g.date h.date)) (groupSpots spots) ∧
    List.Pairwise (fun g h : DayGroup => g.date ≠ h.date) (groupSpots spots) := by
  have hkeys : (groupKeys spots).Nodup := groupKeys_nodup spots
  have hmap : List.Pairwise (fun g h : DayGroup => g.date ≠ h.date)
      ((groupKeys spots).map (fun d =>
        { date := d
          spots := sortCmp spotCmp (spots.filter (fun s => s.visitDate == d)) })) := by
    rw [List.pairwise_map]
    exact hkeys
  have hperm := perm_sortCmp groupCmp
    ((groupKeys spots).map (fun d =>
      { date := d
        spots := sortCmp spotCmp (spots.filter (fun s => s.visitDate == d)) }))
  have hne : List.Pairwise (fun g h : DayGroup => g.date ≠ h.date) (groupSpots spots) := by
    unfold groupSpots
    exact (List.Perm.pairwise_iff (fun h => Ne.symm h) hperm).mpr hmap
  have hle : List.Pairwise (fun a b => groupCmp a b ≤ 0) (groupSpots spots) := by
    unfold groupSpots
    exact pairwise_sortCmp groupCmp (fun g h => g.date ≠ h.date)
      (fun a b h => h.symm) groupCmp_flip groupCmp_trans _ hmap
  exact ⟨(pairwise_and hle hne).imp (fun h => groupLe_spec _ _ h.1 h.2), hne⟩

/-- Sanity check of C4 on the spec's scenario C: spots with dates
2025-06-02, 2025-06-01 and unset group into buckets ordered
2025-06-01, 2025-06-02, undecided. -/
theorem groupSpots_scenarioC :
    (groupSpots
      [ ⟨"a", "A", "観光", "", "2025-06-02", ""⟩,
        ⟨"b", "B", "観光", "", "2025-06-01", ""⟩,
        ⟨"c", "C", "観光", "", "", ""⟩ ]).map DayGroup.date =
      ["2025-06-01", "2025-06-02", ""] := by decide

/-! Per-leg travel info store (part_000 lines 432-440, 617-642, 659-697).
Each operation is the updater passed to `setTravelInfos` at one entry
`prev[key]`, written as a function of the previous optional entry. -/

inductive TravelMode where
  | transit
  | driving
  | walking
deriving DecidableEq, Repr

/-- Per-leg cached travel info (part_000 lines 434-440); the optional
fields are `undefined` in the source when absent. -/
structure TravelInfo where
  mode : TravelMode
  loading : Bool
  duration : Option String := none
  distance : Option String := none
  error : Option String := none
deriving DecidableEq, Repr

/-- Fallback entry used by `renderConnector` when a leg has no entry yet:
`{ mode: "transit", loading: false }` (part_000 lines 660, 681). -/
def defaultInfo : TravelInfo :=
  { mode := TravelMode.transit, loading := false }

/-- Mode-button click (part_000 lines 677-687): spread the previous entry
(or the default) and overwrite `mode` while clearing `duration`,
`distance` and `error`.  `loading` is whatever the spread carried over. -/
def setTravelMode (prev : Option TravelInfo) (m : TravelMode) : TravelInfo :=
  { prev.getD defaultInfo with
      mode := m, duration := none, distance := none, error := none }

/-- Start of `fetchTravelTime` (part_000 lines 618-621): mark the leg as
loading under the requested mode and clear the error; any previous
`duration`/`distance` persist through the spread. -/
def fetchStart (prev : Option TravelInfo) (m : TravelMode) : TravelInfo :=
  { prev.getD { mode := m, loading := false } with
      mode := m, loading := true, error := none }

/-- Success completion of `fetchTravelTime` (part_000 lines 631-634):
store the response strings and stop loading; `mode` and `error` persist
through the spread. -/
def fetchSuccess (prev : Option TravelInfo) (m : TravelMode)
    (dur dist : String) : TravelInfo :=
  { prev.getD { mode := m, loading := false } with
      loading := false, duration := some dur, distance := some dist }

/-- Error completion of `fetchTravelTime` (part_000 lines 626-629 and
637-640): store the error and stop loading; `duration`/`distance`
persist through the spread. -/
def fetchFailure (prev : Option TravelInfo) (m : TravelMode)
    (err : String) : TravelInfo :=
  { prev.getD { mode := m, loading := false } with
      loading := false, error := some err }

/-- Idle state of the per-leg machine: not loading, no result, no error. -/
def isIdle (i : TravelInfo) : Prop :=
  i.loading = false ∧ i.duration = none ∧ i.distance = none ∧ i.error = none

/-- C1 counterexample: with that leg's fetch in flight (`loading` true),
changing the transport mode does not force the loading flag to false —
the spread carries it over — so the leg is not returned to Idle. -/
theorem setTravelMode_loading_cex :
    ¬ ((setTravelMode (some (fetchStart none TravelMode.transit))
        TravelMode.driving).loading = false) := by decide

/-- C1 (amended): changing the transport mode clears the stored duration,
distance and error and records the new mode, while the loading flag is
carried over unchanged from the previous entry (false when the leg had no
entry); consequently whenever the leg was not loading — in particular in
Ready or Failed — it returns exactly to Idle.  The cleared fields make
the cached result mode-scoped: no mode's result survives a mode change. -/
theorem setTravelMode_spec (prev : Option TravelInfo) (m : TravelMode) :
    (setTravelMode prev m).duration = none ∧
    (setTravelMode prev m).distance = none ∧
    (setTravelMode prev m).error = none ∧
    (setTravelMode prev m).mode = m ∧
    (setTravelMode prev m).loading = (prev.getD defaultInfo).loading ∧
    ((prev.getD defaultInfo).loading = false → isIdle (setTravelMode prev m)) := by
  cases prev with
  | none => exact ⟨rfl, rfl, rfl, rfl, rfl, fun h => ⟨h, rfl, rfl, rfl⟩⟩
  | some i => exact ⟨rfl, rfl, rfl, rfl, rfl, fun h => ⟨h, rfl, rfl, rfl⟩⟩

/-- Witness for the amended C1: from a Ready entry (a completed transit
fetch), switching to driving lands in Idle. -/
theorem setTravelMode_spec_witness :
    (((some (fetchSuccess none TravelMode.transit "1時間0分" "2.0 km")).getD
        defaultInfo).loading = false) ∧
    isIdle (setTravelMode
      (some (fetchSuccess none TravelMode.transit "1時間0分" "2.0 km"))
      TravelMode.driving) :=
  ⟨by decide,
    (setTravelMode_spec (some (fetchSuccess none TravelMode.transit "1時間0分" "2.0 km"))
      TravelMode.driving).2.2.2.2.2 (by decide)⟩

/-- C2 counterexample: a fetch is started under transit, the user switches
the leg to driving while it is in flight, and then the transit fetch
completes: its response is applied rather than ignored — the leg ends not
loading and displays the superseded transit fetch's duration and distance
while its selected mode is driving. -/
theorem stale_response_cex :
    (fetchSuccess
        (some (setTravelMode (some (fetchStart none TravelMode.transit))
          TravelMode.driving))
        TravelMode.transit "9時間9分" "999.9 km").duration = some "9時間9分" ∧
    (fetchSuccess
        (some (setTravelMode (some (fetchStart none TravelMode.transit))
          TravelMode.driving))
        TravelMode.transit "9時間9分" "999.9 km").mode = TravelMode.driving ∧
    (fetchSuccess
        (some (setTravelMode (some (fetchStart none TravelMode.transit))
          TravelMode.driving))
        TravelMode.transit "9時間9分" "999.9 km").loading = false := by decide

/-- C2 (amended): `fetchTravelTime` has no staleness guard: whatever the
entry held before the fetch began, if the leg's mode is changed while the
fetch is in flight, the success handler still writes the response into
the entry wholesale — the leg ends not loading, displaying the superseded
fetch's duration and distance under the newly selected mode. -/
theorem fetch_completion_applies_stale (prev : Option TravelInfo)
    (m m2 : TravelMode) (dur dist : String) :
    fetchSuccess (some (setTravelMode (some (fetchStart prev m)) m2)) m dur dist =
      { mode := m2, loading := false, duration := some dur,
        distance := some dist, error := none } := by
  cases prev <;> rfl

/-! Spot and Departure mutation handlers (part_000 lines 539-613). -/

/-- JS `String.prototype.trim`, modelled structurally: strip leading and
trailing whitespace characters from the character list. -/
def jsTrim (s : String) : String :=
  String.mk
    (((s.data.dropWhile Char.isWhitespace).reverse.dropWhile Char.isWhitespace).reverse)

/-- Spot form state (part_000 lines 419-425). -/
structure SpotFormState where
  name : String
  category : String
  memo : String
  visitDate : String
  visitTime : String
deriving DecidableEq, Repr

/-- Blank spot form (part_000 lines 444-450). -/
def emptySpotForm : SpotFormState :=
  ⟨"", "観光", "", "", ""⟩

/-- Departure record (part_000 lines 404-408). -/
structure Departure where
  location : String
  datetime : String
  datetimeUndecided : Bool
deriving DecidableEq, Repr

/-- Departure form state (part_000 line 510). -/
structure DepartureForm where
  location : String
  datetime : String
deriving DecidableEq, Repr

/-- `handleSpotSubmit` (part_000 lines 564-579): early-return when the
trimmed name is empty, else append a new spot (with a fresh id, modelled
as the `newId` argument) and reset the form. -/
def handleSpotSubmit (spots : List Spot) (form : SpotFormState) (newId : String) :
    List Spot × SpotFormState :=
  if jsTrim form.name = "" then (spots, form)
  else
    (spots ++
      [{ id := newId, name := jsTrim form.name, category := form.category,
         memo := jsTrim form.memo, visitDate := form.visitDate,
         visitTime := form.visitTime }],
     emptySpotForm)

/-- `handleSpotEditSave` (part_000 lines 592-609): early-return when the
trimmed name is empty (leaving the list and the editing id untouched),
else rewrite the spot with matching id and leave edit mode. -/
def handleSpotEditSave (spots : List Spot) (editingSpotId : Option String)
    (form : SpotFormState) (id : String) : List Spot × Option String :=
  if jsTrim form.name = "" then (spots, editingSpotId)
  else
    (spots.map (fun s =>
      if s.id == id then
        { s with name := jsTrim form.name, category := form.category,
                 memo := jsTrim form.memo, visitDate := form.visitDate,
                 visitTime := form.visitTime }
      else s),
     none)

/-- `handleDepartureSave` (part_000 lines 539-549): the location is the
sentinel when the undecided toggle is on, else the trimmed input;
early-return when it is empty, else replace the departure record and
leave edit mode. -/
def handleDepartureSave (departure : Option Departure) (isEditingDeparture : Bool)
    (form : DepartureForm) (locationUndecided datetimeUndecided : Bool) :
    Option Departure × Bool :=
  let loc := if locationUndecided then "未定" else jsTrim form.location
  if loc = "" then (departure, isEditingDeparture)
  else
    (some { location := loc
            datetime := if datetimeUndecided then "" else form.datetime
            datetimeUndecided := datetimeUndecided },
     false)

/-- `handleDelete` (part_000 lines 611-613): keep the spots whose id
differs. -/
def handleDelete (spots : List Spot) (id : String) : List Spot :=
  spots.filter (fun s => s.id != id)

/-- C8: submitting a Spot whose name is blank after trimming, saving an
edit whose name is blank after trimming, and saving a Departure whose
location is blank while the undecided sentinel is off, are all no-ops:
every piece of state is returned unchanged and no error is raised. -/
theorem blank_mutations_noop (spots : List Spot) (form : SpotFormState)
    (newId : String) (editingSpotId : Option String) (id : String)
    (departure : Option Departure) (isEditingDeparture : Bool)
    (depForm : DepartureForm) (datetimeUndecided : Bool) :
    (jsTrim form.name = "" →
      handleSpotSubmit spots form newId = (spots, form) ∧
      handleSpotEditSave spots editingSpotId form id = (spots, editingSpotId)) ∧
    (jsTrim depForm.location = "" →
      handleDepartureSave departure isEditingDeparture depForm false datetimeUndecided =
        (departure, isEditingDeparture)) := by
  constructor
  · intro h
    constructor <;> simp [handleSpotSubmit, handleSpotEditSave, h]
  · intro h
    simp [handleDepartureSave, h]

/-- Witness for C8: a one-space name and a one-space location are blank
after trimming and leave everything unchanged. -/
theorem blank_mutations_noop_witness :
    jsTrim " " = "" ∧
    handleSpotSubmit [] ⟨" ", "観光", "", "", ""⟩ "id1" =
      ([], (⟨" ", "観光", "", "", ""⟩ : SpotFormState)) ∧
    handleDepartureSave none true ⟨" ", ""⟩ false false = (none, true) :=
  ⟨by decide,
    ((blank_mutations_noop [] ⟨" ", "観光", "", "", ""⟩ "id1" none "x" none true
        ⟨" ", ""⟩ false).1 (by decide)).1,
    (blank_mutations_noop [] ⟨" ", "観光", "", "", ""⟩ "id1" none "x" none true
        ⟨" ", ""⟩ false).2 (by decide)⟩

/-- C9: deleting an identifier that no spot carries returns the list
unchanged (and raises nothing), and deleting the same identifier twice
equals deleting it once, on any list. -/
theorem delete_noop_idempotent (spots : List Spot) (id : String) :
    ((∀ s ∈ spots, s.id ≠ id) → handleDelete spots id = spots) ∧
    handleDelete (handleDelete spots id) id = handleDelete spots id := by
  constructor
  · intro h
    rw [handleDelete, List.filter_eq_self]
    intro a ha
    simpa using h a ha
  · simp [handleDelete, List.filter_filter]

/-- Witness for C9: deleting an absent id from a one-spot list keeps the
list as it was. -/
theorem delete_noop_idempotent_witness :
    (∀ s ∈ ([⟨"keep", "a", "観光", "", "", ""⟩] : List Spot), s.id ≠ "gone") ∧
    handleDelete [⟨"keep", "a", "観光", "", "", ""⟩] "gone" =
      [⟨"keep", "a", "観光", "", "", ""⟩] :=
  ⟨by decide,
    (delete_noop_idempotent [⟨"keep", "a", "観光", "", "", ""⟩] "gone").1 (by decide)⟩

/-! Travel-time API route (`src/src/app/api/travel-time/route.ts`).
JSON numbers are modelled as `Nat` (the handler rounds with `Math.round`
before formatting; float rounding artifacts are out of scope). -/

/-- `formatDuration` (route.ts lines 24-29): `h = floor(s/3600)`,
`m = floor((s % 3600)/60)`; the hour component is omitted when zero. -/
def formatDuration (seconds : Nat) : String :=
  if seconds / 3600 > 0 then
    toString (seconds / 3600) ++ "時間" ++ toString (seconds % 3600 / 60) ++ "分"
  else toString (seconds % 3600 / 60) ++ "分"

/-- `formatDistance` (route.ts lines 31-34): at least 1000 m renders as
kilometres with `toFixed(1)` — modelled as rounding to the nearest tenth
of a kilometre, half up — otherwise whole metres (`Math.round` is the
identity on the already-rounded input). -/
def formatDistance (meters : Nat) : String :=
  if meters ≥ 1000 then
    toString ((meters + 50) / 100 / 10) ++ "." ++
      toString ((meters + 50) / 100 % 10) ++ " km"
  else toString meters ++ " m"

/-- C5: a successful route result is formatted as hours and minutes with
the hour component omitted exactly when it is zero — the displayed pieces
are the true hour/minute decomposition of the seconds — and as kilometres
to one decimal place (nearest tenth of a kilometre) when at least 1000 m,
else whole metres; in particular 3600 s renders as "1時間0分" and 2000 m
as "2.0 km". -/
theorem format_spec (s m : Nat) :
    (formatDuration s =
      if s / 3600 = 0 then toString (s / 60 % 60) ++ "分"
      else toString (s / 3600) ++ "時間" ++ toString (s / 60 % 60) ++ "分") ∧
    (3600 * (s / 3600) + 60 * (s / 60 % 60) ≤ s ∧
      s < 3600 * (s / 3600) + 60 * (s / 60 % 60) + 60) ∧
    (1000 ≤ m → ∃ km tenth, tenth < 10 ∧
      formatDistance m = toString km ++ "." ++ toString tenth ++ " km" ∧
      100 * (10 * km + tenth) ≤ m + 50 ∧ m + 50 < 100 * (10 * km + tenth) + 100) ∧
    (m < 1000 → formatDistance m = toString m ++ " m") ∧
    formatDuration 3600 = "1時間0分" ∧
    formatDistance 2000 = "2.0 km" := by
  have hm : s % 3600 / 60 = s / 60 % 60 := by
    have hsplit := Nat.mod_mul_right_div_self s 60 60
    simpa using hsplit
  refine ⟨?_, by omega, ?_, ?_, by decide, by decide⟩
  · unfold formatDuration
    rw [hm]
    by_cases h : s / 3600 = 0
    · rw [if_pos h, if_neg (by omega)]
    · rw [if_neg h, if_pos (by omega)]
  · intro h1000
    refine ⟨(m + 50) / 100 / 10, (m + 50) / 100 % 10, by omega, ?_, by omega, by omega⟩
    unfold formatDistance
    rw [if_pos h1000]
  · intro hsmall
    unfold formatDistance
    rw [if_neg (by omega)]

/-- Witness for C5 at the spec's scenario values: 2000 m renders to one
decimal place as the nearest tenth of a kilometre. -/
theorem format_spec_witness :
    (1000 ≤ 2000) ∧ (∃ km tenth, tenth < 10 ∧
      formatDistance 2000 = toString km ++ "." ++ toString tenth ++ " km" ∧
      100 * (10 * km + tenth) ≤ 2000 + 50 ∧
      2000 + 50 < 100 * (10 * km + tenth) + 100) :=
  ⟨by decide, (format_spec 3600 2000).2.2.1 (by decide)⟩

/-- Geocoding candidate (route.ts lines 3, 10-22): raw coordinate strings
from the geocoding response.  The handler parses them only to splice into
the routing URL, so they are opaque tokens of the model. -/
structure Coord where
  lat : String
  lon : String
deriving DecidableEq, Repr

/-- One OSRM route (route.ts lines 5-8), numbers taken after rounding. -/
structure RouteLeg where
  duration : Nat
  distance : Nat
deriving DecidableEq, Repr

/-- OSRM response body (route.ts lines 5-8); an absent `routes` field is
modelled as the empty list (the code treats both as no route). -/
structure OsrmResponse where
  code : String
  routes : List RouteLeg
deriving DecidableEq, Repr

/-- Outcomes of the outbound calls: `Except.error msg` models a rejected
fetch or JSON parse whose `Error` carries `msg`; `Except.ok` a parsed
body. -/
structure Env where
  geocode : String → Except String (List Coord)
  route : String → Coord → Coord → Except String OsrmResponse

/-- Outbound calls the handler performs, in issue order. -/
inductive ApiEvent where
  | geo (query : String)
  | route (profile : String) (origin dest : Coord)
deriving DecidableEq, Repr

/-- JSON body of a handler response: the fields that can appear. -/
structure ApiBody where
  duration : Option String := none
  distance : Option String := none
  error : Option String := none
deriving DecidableEq, Repr

structure ApiResult where
  status : Nat
  body : ApiBody
  trace : List ApiEvent
deriving DecidableEq, Repr

/-- JS falsiness of `searchParams.get`: `null` or the empty string. -/
def isBlank : Option String → Bool
  | none => true
  | some s => s == ""

/-- Profile selection (route.ts lines 57-58): `walking` and `cycling`
pass through, anything else becomes `driving`. -/
def profileOf (mode : String) : String :=
  if mode == "walking" then "walking"
  else if mode == "cycling" then "cycling"
  else "driving"

/-- `geocode` (route.ts lines 10-22) applied to a fetch outcome: a
rejected fetch propagates; an empty candidate list throws
place-not-found; otherwise the first candidate is used. -/
def resolveGeo : Except String (List Coord) → String → Except String Coord
  | Except.error msg, _ => Except.error msg
  | Except.ok [], q => Except.error ("場所が見つかりません: " ++ q)
  | Except.ok (c :: _), _ => Except.ok c

/-- `GET` (route.ts lines 36-80) over an environment of outbound-call
outcomes, instrumented with the trace of calls issued.  `Promise.all`
issues both geocode fetches before either result is inspected, so both
`geo` events are always recorded once past the 400 guard; its rejection
order is serialized origin-first here (in JS whichever settles first
wins; no claim depends on the winning message).  The JS check
`code !== "Ok" || !routes?.length` is rendered as the equivalent nested
branch; `NextResponse.json` defaults to status 200. -/
def GET (env : Env) (origin destination mode : Option String) : ApiResult :=
  if isBlank origin || isBlank destination then
    ⟨400, { error := some "origin と destination は必須です" }, []⟩
  else
    match resolveGeo (env.geocode (origin.getD "")) (origin.getD "") with
    | Except.error msg =>
        ⟨404, { error := some msg },
          [ApiEvent.geo (origin.getD ""), ApiEvent.geo (destination.getD "")]⟩
    | Except.ok c1 =>
        match resolveGeo (env.geocode (destination.getD "")) (destination.getD "") with
        | Except.error msg =>
            ⟨404, { error := some msg },
              [ApiEvent.geo (origin.getD ""), ApiEvent.geo (destination.getD "")]⟩
        | Except.ok c2 =>
            match env.route (profileOf (mode.getD "driving")) c1 c2 with
            | Except.error msg =>
                ⟨404, { error := some msg },
                  [ApiEvent.geo (origin.getD ""), ApiEvent.geo (destination.getD ""),
                   ApiEvent.route (profileOf (mode.getD "driving")) c1 c2]⟩
            | Except.ok resp =>
                if resp.code == "Ok" then
                  match resp.routes with
                  | [] =>
                      ⟨404, { error := some "ルートが見つかりません" },
                        [ApiEvent.geo (origin.getD ""),
                         ApiEvent.geo (destination.getD ""),
                         ApiEvent.route (profileOf (mode.getD "driving")) c1 c2]⟩
                  | r :: _ =>
                      ⟨200, { duration := some (formatDuration r.duration),
                              distance := some (formatDistance r.distance) },
                        [ApiEvent.geo (origin.getD ""),
                         ApiEvent.geo (destination.getD ""),
                         ApiEvent.route (profileOf (mode.getD "driving")) c1 c2]⟩
                else
                  ⟨404, { error := some "ルートが見つかりません" },
                    [ApiEvent.geo (origin.getD ""),
                     ApiEvent.geo (destination.getD ""),
                     ApiEvent.route (profileOf (mode.getD "driving")) c1 c2]⟩

/-! Branch equations of `GET`, shared by the claims below. -/

theorem GET_blank (env : Env) (origin destination mode : Option String)
    (h : (isBlank origin || isBlank destination) = true) :
    GET env origin destination mode =
      ⟨400, { error := some "origin と destination は必須です" }, []⟩ := by
  simp [GET, h]

theorem GET_geo1_error (env : Env) (origin destination mode : Option String)
    (msg : String) (h : (isBlank origin || isBlank destination) = false)
    (hg : resolveGeo (env.geocode (origin.getD "")) (origin.getD "") =
      Except.error msg) :
    GET env origin destination mode =
      ⟨404, { error := some msg },
        [ApiEvent.geo (origin.getD ""), ApiEvent.geo (destination.getD "")]⟩ := by
  simp [GET, h, hg]

theorem GET_geo2_error (env : Env) (origin destination mode : Option String)
    (c1 : Coord) (msg : String) (h : (isBlank origin || isBlank destination) = false)
    (hg1 : resolveGeo (env.geocode (origin.getD "")) (origin.getD "") = Except.ok c1)
    (hg2 : resolveGeo (env.geocode (destination.getD "")) (destination.getD "") =
      Except.error msg) :
    GET env origin destination mode =
      ⟨404, { error := some msg },
        [ApiEvent.geo (origin.getD ""), ApiEvent.geo (destination.getD "")]⟩ := by
  simp [GET, h, hg1, hg2]

theorem GET_route_error (env : Env) (origin destination mode : Option String)
    (c1 c2 : Coord) (msg : String)
    (h : (isBlank origin || isBlank destination) = false)
    (hg1 : resolveGeo (env.geocode (origin.getD "")) (origin.getD "") = Except.ok c1)
    (hg2 : resolveGeo (env.geocode (destination.getD "")) (destination.getD "") =
      Except.ok c2)
    (hr : env.route (profileOf (mode.getD "driving")) c1 c2 = Except.error msg) :
    GET env origin destination mode =
      ⟨404, { error := some msg },
        [ApiEvent.geo (origin.getD ""), ApiEvent.geo (destination.getD ""),
         ApiEvent.route (profileOf (mode.getD "driving")) c1 c2]⟩ := by
  simp [GET, h, hg1, hg2, hr]

theorem GET_route_bad (env : Env) (origin destination mode : Option String)
    (c1 c2 : Coord) (resp : OsrmResponse)
    (h : (isBlank origin || isBlank destination) = false)
    (hg1 : resolveGeo (env.geocode (origin.getD "")) (origin.getD "") = Except.ok c1)
    (hg2 : resolveGeo (env.geocode (destination.getD "")) (destination.getD "") =
      Except.ok c2)
    (hr : env.route (profileOf (mode.getD "driving")) c1 c2 = Except.ok resp)
    (hbad : resp.code ≠ "Ok" ∨ resp.routes = []) :
    GET env origin destination mode =
      ⟨404, { error := some "ルートが見つかりません" },
        [ApiEvent.geo (origin.getD ""), ApiEvent.geo (destination.getD ""),
         ApiEvent.route (profileOf (mode.getD "driving")) c1 c2]⟩ := by
  by_cases hcode : resp.code = "Ok"
  · rcases hbad with hbad | hbad
    · exact absurd hcode hbad
    · simp [GET, h, hg1, hg2, hr, hcode, hbad]
  · simp [GET, h, hg1, hg2, hr, hcode]

theorem GET_success (env : Env) (origin destination mode : Option String)
    (c1 c2 : Coord) (resp : OsrmResponse) (r : RouteLeg) (rest : List RouteLeg)
    (h : (isBlank origin || isBlank destination) = false)
    (hg1 : resolveGeo (env.geocode (origin.getD "")) (origin.getD "") = Except.ok c1)
    (hg2 : resolveGeo (env.geocode (destination.getD "")) (destination.getD "") =
      Except.ok c2)
    (hr : env.route (profileOf (mode.getD "driving")) c1 c2 = Except.ok resp)
    (hcode : resp.code = "Ok") (hroutes : resp.routes = r :: rest) :
    GET env origin destination mode =
      ⟨200, { duration := some (formatDuration r.duration),
              distance := some (formatDistance r.distance) },
        [ApiEvent.geo (origin.getD ""), ApiEvent.geo (destination.getD ""),
         ApiEvent.route (profileOf (mode.getD "driving")) c1 c2]⟩ := by
  simp [GET, h, hg1, hg2, hr, hcode, hroutes]

/-- C6: a request with missing (or empty) origin or destination returns
status 400 with an error body; any resolution failure — a geocode fetch
failure or an empty candidate list (the thrown place-not-found), a route
fetch failure, a non-"Ok" routing code or an empty route list — returns
status 404 with an error body; otherwise the handler returns status 200
with the formatted duration and distance strings of the first route. -/
theorem api_status_spec (env : Env) (origin destination mode : Option String) :
    ((isBlank origin || isBlank destination) = true →
      (GET env origin destination mode).status = 400 ∧
      (GET env origin destination mode).body.error.isSome = true) ∧
    ((isBlank origin || isBlank destination) = false →
      (((∃ msg, resolveGeo (env.geocode (origin.getD "")) (origin.getD "") =
            Except.error msg) ∨
        (∃ c1 msg,
          resolveGeo (env.geocode (origin.getD "")) (origin.getD "") = Except.ok c1 ∧
          resolveGeo (env.geocode (destination.getD "")) (destination.getD "") =
            Except.error msg) ∨
        (∃ c1 c2 msg,
          resolveGeo (env.geocode (origin.getD "")) (origin.getD "") = Except.ok c1 ∧
          resolveGeo (env.geocode (destination.getD "")) (destination.getD "") =
            Except.ok c2 ∧
          env.route (profileOf (mode.getD "driving")) c1 c2 = Except.error msg) ∨
        (∃ c1 c2 resp,
          resolveGeo (env.geocode (origin.getD "")) (origin.getD "") = Except.ok c1 ∧
          resolveGeo (env.geocode (destination.getD "")) (destination.getD "") =
            Except.ok c2 ∧
          env.route (profileOf (mode.getD "driving")) c1 c2 = Except.ok resp ∧
          (resp.code ≠ "Ok" ∨ resp.routes = []))) →
        (GET env origin destination mode).status = 404 ∧
        (GET env origin destination mode).body.error.isSome = true) ∧
      (∀ c1 c2 resp r rest,
        resolveGeo (env.geocode (origin.getD "")) (origin.getD "") = Except.ok c1 →
        resolveGeo (env.geocode (destination.getD "")) (destination.getD "") =
          Except.ok c2 →
        env.route (profileOf (mode.getD "driving")) c1 c2 = Except.ok resp →
        resp.code = "Ok" → resp.routes = r :: rest →
        (GET env origin destination mode).status = 200 ∧
        (GET env origin destination mode).body =
          { duration := some (formatDuration r.duration),
            distance := some (formatDistance r.distance), error := none })) := by
  refine ⟨fun h => ?_,
    fun h => ⟨fun hfail => ?_, fun c1 c2 resp r rest hg1 hg2 hr hcode hroutes => ?_⟩⟩
  · rw [GET_blank env origin destination mode h]
    exact ⟨rfl, rfl⟩
  · rcases hfail with ⟨msg, hg⟩ | ⟨c1, msg, hg1, hg2⟩ | ⟨c1, c2, msg, hg1, hg2, hr⟩ |
      ⟨c1, c2, resp, hg1, hg2, hr, hbad⟩
    · rw [GET_geo1_error env origin destination mode msg h hg]
      exact ⟨rfl, rfl⟩
    · rw [GET_geo2_error env origin destination mode c1 msg h hg1 hg2]
      exact ⟨rfl, rfl⟩
    · rw [GET_route_error env origin destination mode c1 c2 msg h hg1 hg2 hr]
      exact ⟨rfl, rfl⟩
    · rw [GET_route_bad env origin destination mode c1 c2 resp h hg1 hg2 hr hbad]
      exact ⟨rfl, rfl⟩
  · rw [GET_success env origin destination mode c1 c2 resp r rest h hg1 hg2 hr
      hcode hroutes]
    exact ⟨rfl, rfl⟩

/-- Environment where every geocode resolves and the route succeeds with
a 3600 s / 2000 m route. -/
def demoEnv : Env :=
  { geocode := fun _ => Except.ok [⟨"35.0", "139.0"⟩]
    route := fun _ _ _ => Except.ok ⟨"Ok", [⟨3600, 2000⟩]⟩ }

/-- Environment where every geocode returns an empty candidate list. -/
def demoEnvEmpty : Env :=
  { geocode := fun _ => Except.ok []
    route := fun _ _ _ => Except.ok ⟨"Ok", [⟨1, 1⟩]⟩ }

/-- Witness for C6: the spec's scenario A — origin and destination given,
driving mode, a 3600 s / 2000 m route — returns a 200 success body. -/
theorem api_status_spec_witness :
    ((isBlank (some "Tokyo Station") || isBlank (some "Narita Airport")) = false) ∧
    ((GET demoEnv (some "Tokyo Station") (some "Narita Airport")
        (some "driving")).status = 200 ∧
     (GET demoEnv (some "Tokyo Station") (some "Narita Airport")
        (some "driving")).body =
       { duration := some (formatDuration 3600),
         distance := some (formatDistance 2000), error := none }) :=
  ⟨by decide,
    ((api_status_spec demoEnv (some "Tokyo Station") (some "Narita Airport")
        (some "driving")).2 (by decide)).2 ⟨"35.0", "139.0"⟩ ⟨"35.0", "139.0"⟩
      ⟨"Ok", [⟨3600, 2000⟩]⟩ ⟨3600, 2000⟩ [] rfl rfl rfl rfl rfl⟩

/-- C7: once past the 400 guard, both geocoding calls are always issued,
and the routing call appears in the trace only after both geo events and
only when both geocodes resolved; when the origin geocode returns an
empty candidate list — or the origin resolved and the destination's list
is empty — the response is a 404 carrying the place-not-found message and
no route call is ever issued; in every empty-candidate case no route call
is issued. -/
theorem api_route_after_geocode (env : Env) (oq dq : String) (mode : Option String)
    (ho : oq ≠ "") (hd : dq ≠ "") :
    ((GET env (some oq) (some dq) mode).trace =
        [ApiEvent.geo oq, ApiEvent.geo dq] ∨
      (∃ c1 c2, resolveGeo (env.geocode oq) oq = Except.ok c1 ∧
        resolveGeo (env.geocode dq) dq = Except.ok c2 ∧
        (GET env (some oq) (some dq) mode).trace =
          [ApiEvent.geo oq, ApiEvent.geo dq,
           ApiEvent.route (profileOf (mode.getD "driving")) c1 c2])) ∧
    (env.geocode oq = Except.ok [] →
      (GET env (some oq) (some dq) mode).status = 404 ∧
      (GET env (some oq) (some dq) mode).body.error =
        some ("場所が見つかりません: " ++ oq) ∧
      ∀ p c1 c2,
        ApiEvent.route p c1 c2 ∉ (GET env (some oq) (some dq) mode).trace) ∧
    (∀ c1, resolveGeo (env.geocode oq) oq = Except.ok c1 →
      env.geocode dq = Except.ok [] →
      (GET env (some oq) (some dq) mode).status = 404 ∧
      (GET env (some oq) (some dq) mode).body.error =
        some ("場所が見つかりません: " ++ dq) ∧
      ∀ p c1' c2,
        ApiEvent.route p c1' c2 ∉ (GET env (some oq) (some dq) mode).trace) ∧
    ((env.geocode oq = Except.ok [] ∨ env.geocode dq = Except.ok []) →
      ∀ p c1 c2,
        ApiEvent.route p c1 c2 ∉ (GET env (some oq) (some dq) mode).trace) := by
  have hblank : (isBlank (some oq) || isBlank (some dq)) = false := by
    simp [isBlank, ho, hd]
  refine ⟨?_, fun hempty => ?_, fun c1 hg1 hempty => ?_, fun hor p c1 c2 => ?_⟩
  · cases hg1 : resolveGeo (env.geocode oq) oq with
    | error msg =>
        left
        rw [GET_geo1_error env (some oq) (some dq) mode msg hblank hg1]
        rfl
    | ok c1 =>
        cases hg2 : resolveGeo (env.geocode dq) dq with
        | error msg =>
            left
            rw [GET_geo2_error env (some oq) (some dq) mode c1 msg hblank hg1 hg2]
            rfl
        | ok c2 =>
            right
            refine ⟨c1, c2, rfl, rfl, ?_⟩
            cases hr : env.route (profileOf (mode.getD "driving")) c1 c2 with
            | error msg =>
                rw [GET_route_error env (some oq) (some dq) mode c1 c2 msg hblank
                  hg1 hg2 hr]
                rfl
            | ok resp =>
                by_cases hcode : resp.code = "Ok"
                · cases hroutes : resp.routes with
                  | nil =>
                      rw [GET_route_bad env (some oq) (some dq) mode c1 c2 resp
                        hblank hg1 hg2 hr (Or.inr hroutes)]
                      rfl
                  | cons r rest =>
                      rw [GET_success env (some oq) (some dq) mode c1 c2 resp r rest
                        hblank hg1 hg2 hr hcode hroutes]
                      rfl
                · rw [GET_route_bad env (some oq) (some dq) mode c1 c2 resp hblank
                    hg1 hg2 hr (Or.inl hcode)]
                  rfl
  · have hg1 : resolveGeo (env.geocode oq) oq =
        Except.error ("場所が見つかりません: " ++ oq) := by
      rw [hempty]
      rfl
    rw [GET_geo1_error env (some oq) (some dq) mode _ hblank hg1]
    refine ⟨rfl, rfl, fun p c1 c2 hmem => ?_⟩
    simp at hmem
  · have hg2 : resolveGeo (env.geocode dq) dq =
        Except.error ("場所が見つかりません: " ++ dq) := by
      rw [hempty]
      rfl
    rw [GET_geo2_error env (some oq) (some dq) mode c1 _ hblank hg1 hg2]
    refine ⟨rfl, rfl, fun p c1' c2 hmem => ?_⟩
    simp at hmem
  · rcases hor with hempty | hempty
    · have hg1 : resolveGeo (env.geocode oq) oq =
          Except.error ("場所が見つかりません: " ++ oq) := by
        rw [hempty]
        rfl
      rw [GET_geo1_error env (some oq) (some dq) mode _ hblank hg1]
      simp
    · cases hg1 : resolveGeo (env.geocode oq) oq with
      | error msg =>
          rw [GET_geo1_error env (some oq) (some dq) mode msg hblank hg1]
          simp
      | ok c1' =>
          have hg2 : resolveGeo (env.geocode dq) dq =
              Except.error ("場所が見つかりません: " ++ dq) := by
            rw [hempty]
            rfl
          rw [GET_geo2_error env (some oq) (some dq) mode c1' _ hblank hg1 hg2]
          simp

/-- Witness for C7: the spec's scenario B — the geocoder finds no
candidates — yields a 404 place-not-found and no route call in the trace. -/
theorem api_route_after_geocode_witness :
    ("Tokyo" ≠ "" ∧ "Osaka" ≠ "") ∧
    ((GET demoEnvEmpty (some "Tokyo") (some "Osaka") none).status = 404 ∧
     (GET demoEnvEmpty (some "Tokyo") (some "Osaka") none).body.error =
       some ("場所が見つかりません: " ++ "Tokyo") ∧
     ∀ p c1 c2, ApiEvent.route p c1 c2 ∉
       (GET demoEnvEmpty (some "Tokyo") (some "Osaka") none).trace) :=
  ⟨⟨by decide, by decide⟩,
    (api_route_after_geocode demoEnvEmpty "Tokyo" "Osaka" none (by decide)
      (by decide)).2.1 rfl⟩

/-- C10: every response body is exactly one of two shapes: an error body
with an error string and neither duration nor distance, carried by status
400 or 404, or a success body with both strings and no error field,
carried by status 200 — so the client's branching on the presence of the
error field separates failure from success. -/
theorem api_body_shape (env : Env) (origin destination mode : Option String) :
    (∃ e, (GET env origin destination mode).body =
        { duration := none, distance := none, error := some e } ∧
      ((GET env origin destination mode).status = 400 ∨
       (GET env origin destination mode).status = 404)) ∨
    (∃ dur dist, (GET env origin destination mode).body =
        { duration := some dur, distance := some dist, error := none } ∧
      (GET env origin destination mode).status = 200) := by
  cases hb : (isBlank origin || isBlank destination) with
  | true =>
      left
      rw [GET_blank env origin destination mode hb]
      exact ⟨_, rfl, Or.inl rfl⟩
  | false =>
      cases hg1 : resolveGeo (env.geocode (origin.getD "")) (origin.getD "") with
      | error msg =>
          left
          rw [GET_geo1_error env origin destination mode msg hb hg1]
          exact ⟨msg, rfl, Or.inr rfl⟩
      | ok c1 =>
          cases hg2 : resolveGeo (env.geocode (destination.getD ""))
              (destination.getD "") with
          | error msg =>
              left
              rw [GET_geo2_error env origin destination mode c1 msg hb hg1 hg2]
              exact ⟨msg, rfl, Or.inr rfl⟩
          | ok c2 =>
              cases hr : env.route (profileOf (mode.getD "driving")) c1 c2 with
              | error msg =>
                  left
                  rw [GET_route_error env origin destination mode c1 c2 msg hb
                    hg1 hg2 hr]
                  exact ⟨msg, rfl, Or.inr rfl⟩
              | ok resp =>
                  by_cases hcode : resp.code = "Ok"
                  · cases hroutes : resp.routes with
                    | nil =>
                        left
                        rw [GET_route_bad env origin destination mode c1 c2 resp hb
                          hg1 hg2 hr (Or.inr hroutes)]
                        exact ⟨_, rfl, Or.inr rfl⟩
                    | cons r rest =>
                        right
                        rw [GET_success env origin destination mode c1 c2 resp r rest
                          hb hg1 hg2 hr hcode hroutes]
                        exact ⟨_, _, rfl, rfl⟩
                  · left
                    rw [GET_route_bad env origin destination mode c1 c2 resp hb
                      hg1 hg2 hr (Or.inl hcode)]
                    exact ⟨_, rfl, Or.inr rfl⟩

end TravelApp
